import Mathlib

/-!
Shallow embedding of the CSS selector builder of `src/06-objects-tasks.js`
(class `Selector` and the facade object `cssSelectorBuilder`).

Modelling conventions:
* A JS string-or-`undefined` field is `Option String` (`none` = `undefined`).
* The JS `Set` field `selectors` is a `List (Option String)` holding its
  members in insertion order without duplicates; `Set.prototype.has` is
  `List.contains` and `Set.prototype.add` appends when absent.
* A method that mutates `this` and may `throw Error(msg)` becomes a function
  `Selector → … → Selector × Option String`: the first component is the
  instance's state after the call (the object stays mutated even when the
  method throws), the second is `some msg` when the method threw and `none`
  when it returned normally (JS methods return `this`, i.e. that same state).
* Template-literal interpolation and `+=` coerce `undefined` to the string
  "undefined", as JS does (`jsTemplateStr`).
-/

/-- Message of the duplicate-fragment `Error` thrown by `element`, `id`,
`pseudoElement` (the spec's DuplicateFragmentError). -/
def dupMsg : String :=
  "Element, id and pseudo-element should not occur more then one time inside the selector"

/-- Message of the order-violation `Error` (the spec's OrderViolationError). -/
def orderMsg : String :=
  "Selector parts should be arranged in the following order: element, id, class, attribute, pseudo-class, pseudo-element"

/-- The fixed array assigned to `this.order` by the `Selector` constructor. -/
def selectorOrder : List String :=
  ["element", "id", "class", "attr", "pseudoClass", "pseudoElement"]

/-- State of a `Selector` instance: fields `template`, `selectors`, `order`. -/
structure Selector where
  template : Option String
  selectors : List (Option String)
  order : List String
deriving DecidableEq

/-- JS string coercion used by `+=` and template literals on `template`. -/
def jsTemplateStr (t : Option String) : String := t.getD "undefined"

/-- The `Selector` constructor: `new Selector(start, startSelector)` sets
`template = start`, `selectors = new Set([startSelector])`,
`order = ['element', 'id', 'class_, 'attr', 'pseudoClass', 'pseudoElement']`.
Both arguments may be omitted in JS (then `undefined`, i.e. `none`). -/
def Selector.new (start startSelector : Option String) : Selector :=
  { template := start, selectors := [startSelector], order := selectorOrder }

/-- `Set.prototype.add`: appends the member when absent, no-op when present. -/
def setAdd (l : List (Option String)) (x : Option String) : List (Option String) :=
  if l.contains x then l else l ++ [x]

/-- `Array.prototype.indexOf`: first index of `x` in `l`, `-1` when absent. -/
def jsIndexOf (l : List String) (x : String) : Int :=
  if x ∈ l then (l.findIdx (fun y => y == x) : Int) else -1

/-- `Selector.prototype.orderIsCorrect(currentSelector)`:
`nextSelectors = this.order.slice(indexInOrder + 1, this.order.length)` and
the result is `!nextSelectors.some((selector) => this.selectors.has(selector))`. -/
def Selector.orderIsCorrect (s : Selector) (currentSelector : String) : Bool :=
  let indexInOrder := jsIndexOf s.order currentSelector
  let nextSelectors := s.order.drop (indexInOrder + 1).toNat
  !(nextSelectors.any (fun sel => s.selectors.contains (some sel)))

/-- `Selector.prototype.element(value)`: duplicate check (`selectors.has('element')`),
then order check, then `template += value`. Note the method never adds
`'element'` to `selectors`. -/
def Selector.element (s : Selector) (value : String) : Selector × Option String :=
  if s.selectors.contains (some "element") then (s, some dupMsg)
  else if !(s.orderIsCorrect "element") then (s, some orderMsg)
  else ({ s with template := some (jsTemplateStr s.template ++ value) }, none)

/-- `Selector.prototype.id(value)`: duplicate check; in its `else` branch
`selectors.add('id')` runs BEFORE the order check; then `template += '#' + value`. -/
def Selector.id (s : Selector) (value : String) : Selector × Option String :=
  if s.selectors.contains (some "id") then (s, some dupMsg)
  else
    let s1 : Selector := { s with selectors := setAdd s.selectors (some "id") }
    if !(s1.orderIsCorrect "id") then (s1, some orderMsg)
    else ({ s1 with template := some (jsTemplateStr s1.template ++ "#" ++ value) }, none)

/-- `Selector.prototype.class(value)`: order check only, then `template += '.' + value`.
(`class` is a Lean keyword, hence the underscore suffix.) -/
def Selector.class_ (s : Selector) (value : String) : Selector × Option String :=
  if !(s.orderIsCorrect "class") then (s, some orderMsg)
  else ({ s with template := some (jsTemplateStr s.template ++ "." ++ value) }, none)

/-- `Selector.prototype.attr(value)`: order check only, then
`template += '[' + value + ']'`. -/
def Selector.attr (s : Selector) (value : String) : Selector × Option String :=
  if !(s.orderIsCorrect "attr") then (s, some orderMsg)
  else ({ s with template := some (jsTemplateStr s.template ++ "[" ++ value ++ "]") }, none)

/-- `Selector.prototype.pseudoClass(value)`: order check only, then
`template += ':' + value`. -/
def Selector.pseudoClass (s : Selector) (value : String) : Selector × Option String :=
  if !(s.orderIsCorrect "pseudoClass") then (s, some orderMsg)
  else ({ s with template := some (jsTemplateStr s.template ++ ":" ++ value) }, none)

/-- `Selector.prototype.pseudoElement(value)`: duplicate check; in its `else`
branch `selectors.add('pseudoElement')`; then `template += '::' + value`.
There is NO order check in this method. -/
def Selector.pseudoElement (s : Selector) (value : String) : Selector × Option String :=
  if s.selectors.contains (some "pseudoElement") then (s, some dupMsg)
  else
    let s1 : Selector := { s with selectors := setAdd s.selectors (some "pseudoElement") }
    ({ s1 with template := some (jsTemplateStr s1.template ++ "::" ++ value) }, none)

/-- `Selector.prototype.stringify()`: `return this.template`. -/
def Selector.stringify (s : Selector) : Option String := s.template

/-- `Selector.prototype.stringify()` in explicit state-passing form: the body
only reads `this.template` and contains no assignment, so the call returns the
raw `template` value together with the unchanged instance state. -/
def Selector.stringifyCall (s : Selector) : Option String × Selector :=
  (s.template, s)

/-- `cssSelectorBuilder.element(value)`: `new Selector(value, 'element')`. -/
def cssSelectorBuilder.element (value : String) : Selector :=
  Selector.new (some value) (some "element")

/-- `cssSelectorBuilder.id(value)`: `new Selector('#' + value, 'id')`. -/
def cssSelectorBuilder.id (value : String) : Selector :=
  Selector.new (some ("#" ++ value)) (some "id")

/-- `cssSelectorBuilder.class(value)`: `new Selector('.' + value, 'class_)`. -/
def cssSelectorBuilder.class_ (value : String) : Selector :=
  Selector.new (some ("." ++ value)) (some "class")

/-- `cssSelectorBuilder.attr(value)`: `new Selector('[' + value + ']', 'attr')`. -/
def cssSelectorBuilder.attr (value : String) : Selector :=
  Selector.new (some ("[" ++ value ++ "]")) (some "attr")

/-- `cssSelectorBuilder.pseudoClass(value)`: `new Selector(':' + value, 'pseudoClass')`. -/
def cssSelectorBuilder.pseudoClass (value : String) : Selector :=
  Selector.new (some (":" ++ value)) (some "pseudoClass")

/-- `cssSelectorBuilder.pseudoElement(value)`: `new Selector('::' + value, 'pseudoElement')`. -/
def cssSelectorBuilder.pseudoElement (value : String) : Selector :=
  Selector.new (some ("::" ++ value)) (some "pseudoElement")

/-- `cssSelectorBuilder.combine(selector1, combinator, selector2)`:
`new Selector(`sel1.template + " " + combinator + " " + sel2.template`)` with the
constructor's second argument omitted, so the new instance's `selectors` set is
`Set([undefined])`. -/
def cssSelectorBuilder.combine (selector1 : Selector) (combinator : String)
    (selector2 : Selector) : Selector :=
  Selector.new
    (some (jsTemplateStr selector1.template ++ " " ++ combinator ++ " " ++
      jsTemplateStr selector2.template))
    none

/-- `cssSelectorBuilder.combine` in explicit state-passing form: the body only
reads `selector1.template` and `selector2.template` and assigns to neither
operand, so the post-call states of the operands are the input states.
Returns (new instance, post-state of selector1, post-state of selector2). -/
def cssSelectorBuilder.combineCall (selector1 : Selector) (combinator : String)
    (selector2 : Selector) : Selector × Selector × Selector :=
  (cssSelectorBuilder.combine selector1 combinator selector2, selector1, selector2)

/-- `cssSelectorBuilder.stringify()`: `return new Selector().template` — both
constructor arguments are `undefined`, so `template` is `undefined` (`none`). -/
def cssSelectorBuilder.stringify : Option String :=
  (Selector.new none none).template

/-- Test harness: repeatedly invoke the `element` instance method with the
given values, stopping at the first call that throws. Returns the final
instance state and the message of the first thrown error, if any. -/
def elementChain : Selector → List String → Selector × Option String
  | s, [] => (s, none)
  | s, v :: vs =>
    let r := s.element v
    if r.2.isSome then r else elementChain r.1 vs

/-! Helper lemmas about the embedded operations. -/

lemma setAdd_contains (l : List (Option String)) (x : Option String) :
    (setAdd l x).contains x = true := by
  unfold setAdd
  split
  · assumption
  · simp

lemma setAdd_contains_ne (l : List (Option String)) (x y : Option String) (h : x ≠ y) :
    (setAdd l x).contains y = l.contains y := by
  unfold setAdd
  split
  · rfl
  · simp [h, Ne.symm h]

lemma setAdd_mem_self (l : List (Option String)) (x : Option String) :
    x ∈ setAdd l x := by
  unfold setAdd
  split
  · simpa using ‹l.contains x = true›
  · simp

lemma setAdd_mem_ne (l : List (Option String)) (x y : Option String) (h : x ≠ y) :
    (y ∈ setAdd l x) ↔ y ∈ l := by
  unfold setAdd
  split
  · exact Iff.rfl
  · simp [Ne.symm h]

lemma orderIsCorrect_element (s : Selector) (h : s.order = selectorOrder) :
    s.orderIsCorrect "element"
      = !(s.selectors.contains (some "id") || s.selectors.contains (some "class") ||
          s.selectors.contains (some "attr") || s.selectors.contains (some "pseudoClass") ||
          s.selectors.contains (some "pseudoElement")) := by
  have hd : selectorOrder.drop (jsIndexOf selectorOrder "element" + 1).toNat
      = ["id", "class", "attr", "pseudoClass", "pseudoElement"] := by decide
  simp only [Selector.orderIsCorrect, h, hd]
  simp [Bool.or_assoc]

lemma orderIsCorrect_id (s : Selector) (h : s.order = selectorOrder) :
    s.orderIsCorrect "id"
      = !(s.selectors.contains (some "class") || s.selectors.contains (some "attr") ||
          s.selectors.contains (some "pseudoClass") ||
          s.selectors.contains (some "pseudoElement")) := by
  have hd : selectorOrder.drop (jsIndexOf selectorOrder "id" + 1).toNat
      = ["class", "attr", "pseudoClass", "pseudoElement"] := by decide
  simp only [Selector.orderIsCorrect, h, hd]
  simp [Bool.or_assoc]

lemma orderIsCorrect_class (s : Selector) (h : s.order = selectorOrder) :
    s.orderIsCorrect "class"
      = !(s.selectors.contains (some "attr") || s.selectors.contains (some "pseudoClass") ||
          s.selectors.contains (some "pseudoElement")) := by
  have hd : selectorOrder.drop (jsIndexOf selectorOrder "class" + 1).toNat
      = ["attr", "pseudoClass", "pseudoElement"] := by decide
  simp only [Selector.orderIsCorrect, h, hd]
  simp [Bool.or_assoc]

lemma orderIsCorrect_attr (s : Selector) (h : s.order = selectorOrder) :
    s.orderIsCorrect "attr"
      = !(s.selectors.contains (some "pseudoClass") ||
          s.selectors.contains (some "pseudoElement")) := by
  have hd : selectorOrder.drop (jsIndexOf selectorOrder "attr" + 1).toNat
      = ["pseudoClass", "pseudoElement"] := by decide
  simp only [Selector.orderIsCorrect, h, hd]
  simp [Bool.or_assoc]

lemma orderIsCorrect_pseudoClass (s : Selector) (h : s.order = selectorOrder) :
    s.orderIsCorrect "pseudoClass" = !(s.selectors.contains (some "pseudoElement")) := by
  have hd : selectorOrder.drop (jsIndexOf selectorOrder "pseudoClass" + 1).toNat
      = ["pseudoElement"] := by decide
  simp only [Selector.orderIsCorrect, h, hd]
  simp

lemma id_dup (s : Selector) (v : String) (h : some "id" ∈ s.selectors) :
    s.id v = (s, some dupMsg) := by
  simp [Selector.id, h]

lemma id_success_not_dup (s : Selector) (v : String) (hs : (s.id v).2 = none) :
    some "id" ∉ s.selectors := by
  intro hdup
  rw [id_dup s v hdup] at hs
  simp at hs

lemma id_not_dup_selectors (s : Selector) (v : String) (hdup : some "id" ∉ s.selectors) :
    (s.id v).1.selectors = setAdd s.selectors (some "id") := by
  simp only [Selector.id]
  rw [if_neg (by simpa using hdup)]
  split <;> rfl

lemma pe_dup (s : Selector) (v : String) (h : some "pseudoElement" ∈ s.selectors) :
    s.pseudoElement v = (s, some dupMsg) := by
  simp [Selector.pseudoElement, h]

lemma pe_success_not_dup (s : Selector) (v : String) (hs : (s.pseudoElement v).2 = none) :
    some "pseudoElement" ∉ s.selectors := by
  intro hdup
  rw [pe_dup s v hdup] at hs
  simp at hs

lemma pe_not_dup_selectors (s : Selector) (v : String)
    (hdup : some "pseudoElement" ∉ s.selectors) :
    (s.pseudoElement v).1.selectors = setAdd s.selectors (some "pseudoElement") := by
  simp only [Selector.pseudoElement]
  rw [if_neg (by simpa using hdup)]

lemma elementChain_fresh : ∀ (vs : List String) (t : String),
    elementChain { template := some t, selectors := [none], order := selectorOrder } vs
      = ({ template := some (vs.foldl (fun acc v => acc ++ v) t), selectors := [none],
           order := selectorOrder }, none)
  | [], _ => rfl
  | v :: vs, t => by
    have h1 : Selector.element
        { template := some t, selectors := [none], order := selectorOrder } v
        = ({ template := some (t ++ v), selectors := [none], order := selectorOrder }, none) :=
      rfl
    have ih := elementChain_fresh vs (t ++ v)
    simp [elementChain, h1, ih]

/-- C5 counterexample: `stringify()` on the facade does NOT return the empty
string (it returns the `template` of `new Selector()`, which is `undefined`). -/
theorem c5_counterexample : cssSelectorBuilder.stringify ≠ some "" := by decide

/-- C5 (amended): `stringify()` on the facade returns `undefined` (`none`), the
uninitialized `template` of a `Selector` constructed with no arguments. -/
theorem c5_facade_stringify_undefined : cssSelectorBuilder.stringify = none := rfl

/-- C8: `cssSelectorBuilder.combine` does not mutate either operand: after the
call the operands' states, and hence their `stringify()` results, are exactly
what they were before the call. -/
theorem c8_combine_preserves_operands (s1 s2 : Selector) (c : String) :
    (cssSelectorBuilder.combineCall s1 c s2).2.1 = s1 ∧
    (cssSelectorBuilder.combineCall s1 c s2).2.2 = s2 ∧
    (cssSelectorBuilder.combineCall s1 c s2).2.1.stringify = s1.stringify ∧
    (cssSelectorBuilder.combineCall s1 c s2).2.2.stringify = s2.stringify :=
  ⟨rfl, rfl, rfl, rfl⟩

/-- C9: `stringify()` is a read-only projection of `template` and is
idempotent: a call leaves the instance state unchanged, and a second call on
the post-call state returns the identical value. -/
theorem c9_stringify_readonly_idempotent (s : Selector) :
    (s.stringifyCall).2 = s ∧ (s.stringifyCall).1 = s.template ∧
    ((s.stringifyCall).2.stringifyCall).1 = (s.stringifyCall).1 :=
  ⟨rfl, rfl, rfl⟩

/-- C2 counterexample: the interleaved chain class→attr→class, started from the
facade `class` entry, is ACCEPTED by the code (the claim says it throws
OrderViolationError): neither the `class` nor the `attr` instance method
records its kind in `selectors`, so the second `class` passes the order check. -/
theorem c2_counterexample :
    (((cssSelectorBuilder.class_ "a").attr "x").1.class_ "b").2 = none ∧
    (((cssSelectorBuilder.class_ "a").attr "x").1.class_ "b").1.stringify
      = some ".a[x].b" := by
  decide

/-- C2 (amended): both class→attr→class and class→class→attr, started from the
facade `class` entry, are accepted: the only recorded kind is the initial
Class, which blocks neither `class` nor `attr`, and the appended fragments are
rendered in call order. -/
theorem c2_interleavings_accepted (a x b : String) :
    ((cssSelectorBuilder.class_ a).attr x).2 = none ∧
    (((cssSelectorBuilder.class_ a).attr x).1.class_ b).2 = none ∧
    (((cssSelectorBuilder.class_ a).attr x).1.class_ b).1.stringify
      = some ("." ++ a ++ "[" ++ x ++ "]" ++ "." ++ b) ∧
    ((cssSelectorBuilder.class_ a).class_ b).2 = none ∧
    (((cssSelectorBuilder.class_ a).class_ b).1.attr x).2 = none ∧
    (((cssSelectorBuilder.class_ a).class_ b).1.attr x).1.stringify
      = some ("." ++ a ++ "." ++ b ++ "[" ++ x ++ "]") :=
  ⟨rfl, rfl, rfl, rfl, rfl, rfl⟩

/-- C1 counterexample: out-of-order appends that the claim says must throw are
accepted by the code. `element('a').pseudoClass('p').class('c')` appends a
Class fragment after a PseudoClass fragment (a strictly greater kind) without
error, and `element('a').class('c').id('x')` appends an Id fragment after a
Class fragment without error (the claim's "id after class throws" fails). -/
theorem c1_out_of_order_accepted :
    (((cssSelectorBuilder.element "a").pseudoClass "p").1.class_ "c").2 = none ∧
    (((cssSelectorBuilder.element "a").pseudoClass "p").1.class_ "c").1.stringify
      = some "a:p.c" ∧
    (((cssSelectorBuilder.element "a").class_ "c").1.id "x").2 = none ∧
    (((cssSelectorBuilder.element "a").class_ "c").1.id "x").1.stringify
      = some "a.c#x" := by
  decide

/-- C1 (amended): the order check consults only the kinds RECORDED in the
instance's `selectors` set (the construction kind plus `id` / `pseudoElement`
recorded by those two methods; fragments appended by `element`, `class`,
`attr`, `pseudoClass` are never recorded). Relative to that recorded set the
fixed order is enforced: each method throws the order message exactly when a
recorded kind strictly greater than its own is present (after the duplicate
check for `element` and `id`; `pseudoElement` performs no order check at all).
In particular `id` directly after the facade `class` entry throws. -/
theorem c1_order_vs_recorded (s : Selector) (v : String) (h : s.order = selectorOrder) :
    ((s.element v).2 =
      if s.selectors.contains (some "element") then some dupMsg
      else if s.selectors.contains (some "id") || s.selectors.contains (some "class") ||
          s.selectors.contains (some "attr") || s.selectors.contains (some "pseudoClass") ||
          s.selectors.contains (some "pseudoElement") then some orderMsg
      else none) ∧
    ((s.id v).2 =
      if s.selectors.contains (some "id") then some dupMsg
      else if s.selectors.contains (some "class") || s.selectors.contains (some "attr") ||
          s.selectors.contains (some "pseudoClass") ||
          s.selectors.contains (some "pseudoElement") then some orderMsg
      else none) ∧
    ((s.class_ v).2 =
      if s.selectors.contains (some "attr") || s.selectors.contains (some "pseudoClass") ||
          s.selectors.contains (some "pseudoElement") then some orderMsg
      else none) ∧
    ((s.attr v).2 =
      if s.selectors.contains (some "pseudoClass") ||
          s.selectors.contains (some "pseudoElement") then some orderMsg
      else none) ∧
    ((s.pseudoClass v).2 =
      if s.selectors.contains (some "pseudoElement") then some orderMsg else none) ∧
    ((s.pseudoElement v).2 =
      if s.selectors.contains (some "pseudoElement") then some dupMsg else none) ∧
    ((cssSelectorBuilder.class_ "c").id "x").2 = some orderMsg := by
  have m1 : (some "class" ∈ setAdd s.selectors (some "id")) ↔ some "class" ∈ s.selectors :=
    setAdd_mem_ne s.selectors _ _ (by decide)
  have m2 : (some "attr" ∈ setAdd s.selectors (some "id")) ↔ some "attr" ∈ s.selectors :=
    setAdd_mem_ne s.selectors _ _ (by decide)
  have m3 : (some "pseudoClass" ∈ setAdd s.selectors (some "id"))
      ↔ some "pseudoClass" ∈ s.selectors :=
    setAdd_mem_ne s.selectors _ _ (by decide)
  have m4 : (some "pseudoElement" ∈ setAdd s.selectors (some "id"))
      ↔ some "pseudoElement" ∈ s.selectors :=
    setAdd_mem_ne s.selectors _ _ (by decide)
  refine ⟨?_, ?_, ?_, ?_, ?_, ?_, by decide⟩
  · by_cases h1 : some "id" ∈ s.selectors <;>
      by_cases h2 : some "class" ∈ s.selectors <;>
      by_cases h3 : some "attr" ∈ s.selectors <;>
      by_cases h4 : some "pseudoClass" ∈ s.selectors <;>
      by_cases h5 : some "pseudoElement" ∈ s.selectors <;>
      by_cases hdup : some "element" ∈ s.selectors <;>
      simp [Selector.element, orderIsCorrect_element s h, h1, h2, h3, h4, h5, hdup]
  · by_cases hdup : some "id" ∈ s.selectors <;>
      by_cases h2 : some "class" ∈ s.selectors <;>
      by_cases h3 : some "attr" ∈ s.selectors <;>
      by_cases h4 : some "pseudoClass" ∈ s.selectors <;>
      by_cases h5 : some "pseudoElement" ∈ s.selectors <;>
      simp [Selector.id, orderIsCorrect_id, h, hdup, h2, h3, h4, h5, m1, m2, m3, m4]
  · by_cases h3 : some "attr" ∈ s.selectors <;>
      by_cases h4 : some "pseudoClass" ∈ s.selectors <;>
      by_cases h5 : some "pseudoElement" ∈ s.selectors <;>
      simp [Selector.class_, orderIsCorrect_class s h, h3, h4, h5]
  · by_cases h4 : some "pseudoClass" ∈ s.selectors <;>
      by_cases h5 : some "pseudoElement" ∈ s.selectors <;>
      simp [Selector.attr, orderIsCorrect_attr s h, h4, h5]
  · by_cases h5 : some "pseudoElement" ∈ s.selectors <;>
      simp [Selector.pseudoClass, orderIsCorrect_pseudoClass s h, h5]
  · by_cases hdup : some "pseudoElement" ∈ s.selectors <;>
      simp [Selector.pseudoElement, hdup]

/-- C1 witness: instantiating the amended order characterization at the
facade-class instance shows `class('c').id('x')` throws the order message. -/
theorem c1_witness_order :
    ((cssSelectorBuilder.class_ "c").id "x").2 = some orderMsg :=
  ((c1_order_vs_recorded (cssSelectorBuilder.class_ "c") "x" rfl).2.1).trans (by decide)

/-- C3 counterexample: on a builder instance produced by `combine`, the
`element` instance method can be called twice without any error — the claim's
"calling element when Element was already appended once raises
DuplicateFragmentError" fails, because the `element` method never records its
kind in `selectors`. -/
theorem c3_counterexample :
    ((cssSelectorBuilder.combine (cssSelectorBuilder.element "div") "+"
        (cssSelectorBuilder.element "p")).element "a").2 = none ∧
    (((cssSelectorBuilder.combine (cssSelectorBuilder.element "div") "+"
        (cssSelectorBuilder.element "p")).element "a").1.element "b").2 = none := by
  decide

/-- C3 (amended): `id` and `pseudoElement` are at-most-once on every instance
(after a successful call, a second call throws the duplicate message), and a
second `element` call on a facade-`element` instance throws the duplicate
message; but the `element` instance method never records the Element kind in
`selectors`, so an element fragment appended by the method (e.g. on a
combine-created instance) never triggers the duplicate check. -/
theorem c3_at_most_once :
    (∀ (s : Selector) (v w : String), (s.id v).2 = none →
        ((s.id v).1.id w).2 = some dupMsg) ∧
    (∀ (s : Selector) (v w : String), (s.pseudoElement v).2 = none →
        ((s.pseudoElement v).1.pseudoElement w).2 = some dupMsg) ∧
    (∀ v w : String, ((cssSelectorBuilder.element v).element w).2 = some dupMsg) ∧
    (∀ (s : Selector) (v : String), (s.element v).1.selectors = s.selectors) := by
  refine ⟨?_, ?_, ?_, ?_⟩
  · intro s v w hs
    have hdup := id_success_not_dup s v hs
    have hmem : some "id" ∈ (s.id v).1.selectors := by
      rw [id_not_dup_selectors s v hdup]
      exact setAdd_mem_self _ _
    rw [id_dup _ w hmem]
  · intro s v w hs
    have hdup := pe_success_not_dup s v hs
    have hmem : some "pseudoElement" ∈ (s.pseudoElement v).1.selectors := by
      rw [pe_not_dup_selectors s v hdup]
      exact setAdd_mem_self _ _
    rw [pe_dup _ w hmem]
  · intro v w
    rfl
  · intro s v
    simp only [Selector.element]
    split
    · rfl
    · split <;> rfl

/-- C3 witness: `element('e').id('m')` succeeds, and a second `id` on the
result throws the duplicate message, by the amended at-most-once theorem. -/
theorem c3_witness :
    (((cssSelectorBuilder.element "e").id "m").1.id "n").2 = some dupMsg :=
  c3_at_most_once.1 (cssSelectorBuilder.element "e") "m" "n" (by decide)

/-- C4 counterexample: `class('c').id('x')` throws the order message, yet the
instance's `selectors` set has been mutated by the failed call — `id` adds its
kind before running the order check, so the claim's "the set of used kinds is
exactly as it was before the call" fails. -/
theorem c4_counterexample :
    ((cssSelectorBuilder.class_ "c").id "x").2 = some orderMsg ∧
    ((cssSelectorBuilder.class_ "c").id "x").1.selectors
      ≠ (cssSelectorBuilder.class_ "c").selectors ∧
    ((cssSelectorBuilder.class_ "c").id "x").1.selectors = [some "class", some "id"] := by
  decide

/-- C4 (amended): when a method throws, the rendered text is always unchanged,
and `element`, `class`, `attr`, `pseudoClass`, `pseudoElement` leave the whole
instance state unchanged; `id` leaves the state unchanged on a duplicate
throw, but on an order-violation throw it has already recorded `'id'` in the
`selectors` set (its duplicate check runs before the order check, and the set
mutation runs between the two). -/
theorem c4_checks_before_mutation :
    (∀ (s : Selector) (v e : String), (s.element v).2 = some e → (s.element v).1 = s) ∧
    (∀ (s : Selector) (v e : String), (s.class_ v).2 = some e → (s.class_ v).1 = s) ∧
    (∀ (s : Selector) (v e : String), (s.attr v).2 = some e → (s.attr v).1 = s) ∧
    (∀ (s : Selector) (v e : String), (s.pseudoClass v).2 = some e →
        (s.pseudoClass v).1 = s) ∧
    (∀ (s : Selector) (v e : String), (s.pseudoElement v).2 = some e →
        (s.pseudoElement v).1 = s) ∧
    (∀ (s : Selector) (v e : String), (s.id v).2 = some e →
        (s.id v).1.template = s.template) ∧
    (∀ (s : Selector) (v : String), (s.id v).2 = some dupMsg → (s.id v).1 = s) ∧
    (∀ (s : Selector) (v : String), (s.id v).2 = some orderMsg →
        (s.id v).1.selectors = setAdd s.selectors (some "id")) := by
  refine ⟨?_, ?_, ?_, ?_, ?_, ?_, ?_, ?_⟩
  · intro s v e he
    simp only [Selector.element] at he ⊢
    split_ifs at he ⊢ <;> first | rfl | simp_all
  · intro s v e he
    simp only [Selector.class_] at he ⊢
    split_ifs at he ⊢ <;> first | rfl | simp_all
  · intro s v e he
    simp only [Selector.attr] at he ⊢
    split_ifs at he ⊢ <;> first | rfl | simp_all
  · intro s v e he
    simp only [Selector.pseudoClass] at he ⊢
    split_ifs at he ⊢ <;> first | rfl | simp_all
  · intro s v e he
    simp only [Selector.pseudoElement] at he ⊢
    split_ifs at he ⊢ <;> first | rfl | simp_all
  · intro s v e he
    simp only [Selector.id] at he ⊢
    split_ifs at he ⊢ <;> first | rfl | simp_all
  · intro s v he
    simp only [Selector.id] at he ⊢
    split_ifs at he ⊢ <;> first | rfl | simp_all [dupMsg, orderMsg]
  · intro s v he
    simp only [Selector.id] at he ⊢
    split_ifs at he ⊢ <;> first | rfl | simp_all [dupMsg, orderMsg]

/-- C4 witness: a duplicate-throwing `element` call leaves the instance
exactly as it was, by the amended checks-before-mutation theorem. -/
theorem c4_witness :
    ((cssSelectorBuilder.element "a").element "b").1 = cssSelectorBuilder.element "a" :=
  c4_checks_before_mutation.1 (cssSelectorBuilder.element "a") "b" dupMsg (by decide)

/-- C6: each facade entry seeds the rendered text with the correctly prefixed
fragment (`element v ↦ v`, `id v ↦ "#" + v`, `class v ↦ "." + v`,
`attr v ↦ "[" + v + "]"`, `pseudoClass v ↦ ":" + v`,
`pseudoElement v ↦ "::" + v`); every successful instance call appends its
prefixed fragment to the rendered text; and the chain
`id('main').class('container').class('editable')` renders
`'#main.container.editable'`. -/
theorem c6_rendering :
    (∀ v : String, (cssSelectorBuilder.element v).stringify = some v) ∧
    (∀ v : String, (cssSelectorBuilder.id v).stringify = some ("#" ++ v)) ∧
    (∀ v : String, (cssSelectorBuilder.class_ v).stringify = some ("." ++ v)) ∧
    (∀ v : String, (cssSelectorBuilder.attr v).stringify = some ("[" ++ v ++ "]")) ∧
    (∀ v : String, (cssSelectorBuilder.pseudoClass v).stringify = some (":" ++ v)) ∧
    (∀ v : String, (cssSelectorBuilder.pseudoElement v).stringify = some ("::" ++ v)) ∧
    (∀ (s : Selector) (v : String), (s.element v).2 = none →
        (s.element v).1.template = some (jsTemplateStr s.template ++ v)) ∧
    (∀ (s : Selector) (v : String), (s.id v).2 = none →
        (s.id v).1.template = some (jsTemplateStr s.template ++ "#" ++ v)) ∧
    (∀ (s : Selector) (v : String), (s.class_ v).2 = none →
        (s.class_ v).1.template = some (jsTemplateStr s.template ++ "." ++ v)) ∧
    (∀ (s : Selector) (v : String), (s.attr v).2 = none →
        (s.attr v).1.template = some (jsTemplateStr s.template ++ "[" ++ v ++ "]")) ∧
    (∀ (s : Selector) (v : String), (s.pseudoClass v).2 = none →
        (s.pseudoClass v).1.template = some (jsTemplateStr s.template ++ ":" ++ v)) ∧
    (∀ (s : Selector) (v : String), (s.pseudoElement v).2 = none →
        (s.pseudoElement v).1.template = some (jsTemplateStr s.template ++ "::" ++ v)) ∧
    ((cssSelectorBuilder.id "main").class_ "container").2 = none ∧
    (((cssSelectorBuilder.id "main").class_ "container").1.class_ "editable").2 = none ∧
    (((cssSelectorBuilder.id "main").class_ "container").1.class_ "editable").1.stringify
      = some "#main.container.editable" := by
  refine ⟨fun v => rfl, fun v => rfl, fun v => rfl, fun v => rfl, fun v => rfl, fun v => rfl,
    ?_, ?_, ?_, ?_, ?_, ?_, by decide, by decide, by decide⟩
  · intro s v hs
    simp only [Selector.element] at hs ⊢
    split_ifs at hs ⊢ <;> simp_all
  · intro s v hs
    simp only [Selector.id] at hs ⊢
    split_ifs at hs ⊢ <;> simp_all
  · intro s v hs
    simp only [Selector.class_] at hs ⊢
    split_ifs at hs ⊢ <;> simp_all
  · intro s v hs
    simp only [Selector.attr] at hs ⊢
    split_ifs at hs ⊢ <;> simp_all
  · intro s v hs
    simp only [Selector.pseudoClass] at hs ⊢
    split_ifs at hs ⊢ <;> simp_all
  · intro s v hs
    simp only [Selector.pseudoElement] at hs ⊢
    split_ifs at hs ⊢ <;> simp_all

/-- C6 witness: the class-append equation instantiated on the facade-`id`
instance: `id('main').class('container')` succeeds and appends
`"." + "container"`. -/
theorem c6_witness :
    ((cssSelectorBuilder.id "main").class_ "container").1.template
      = some (jsTemplateStr (cssSelectorBuilder.id "main").template ++ "." ++ "container") :=
  c6_rendering.2.2.2.2.2.2.2.2.1 (cssSelectorBuilder.id "main") "container" (by decide)

/-- C7: `combine(a, c, b)` renders exactly `render(a) + " " + c + " " + render(b)`
with an empty recorded-kind content (`Set([undefined])`), with no whitespace
normalization (the `' '` combinator leaves three spaces between the operands),
and nested combines concatenate left to right:
`combine(element('div').id('main'), '+', element('table').id('data'))`
stringifies to `'div#main + table#data'`. -/
theorem c7_combine_renders (a b : Selector) (c ta tb : String)
    (ha : a.template = some ta) (hb : b.template = some tb) :
    (cssSelectorBuilder.combine a c b).stringify = some (ta ++ " " ++ c ++ " " ++ tb) ∧
    (cssSelectorBuilder.combine a c b).selectors = [none] ∧
    (cssSelectorBuilder.combine
        (((cssSelectorBuilder.element "div").id "main").1) "+"
        (((cssSelectorBuilder.element "table").id "data").1)).stringify
      = some "div#main + table#data" ∧
    (cssSelectorBuilder.combine (cssSelectorBuilder.element "a") "+"
        (cssSelectorBuilder.combine (cssSelectorBuilder.element "b") " "
          (cssSelectorBuilder.element "c"))).stringify = some "a + b   c" := by
  refine ⟨?_, rfl, by decide, by decide⟩
  simp [cssSelectorBuilder.combine, Selector.stringify, Selector.new, jsTemplateStr, ha, hb]

/-- C7 witness: the combine-rendering theorem instantiated at
`element('div').id('main')` and `element('table').id('data')` with the `'+'`
combinator yields `'div#main + table#data'`. -/
theorem c7_witness :
    (cssSelectorBuilder.combine (((cssSelectorBuilder.element "div").id "main").1) "+"
        (((cssSelectorBuilder.element "table").id "data").1)).stringify
      = some "div#main + table#data" :=
  ((c7_combine_renders (((cssSelectorBuilder.element "div").id "main").1)
      (((cssSelectorBuilder.element "table").id "data").1) "+" "div#main" "table#data"
      (by decide) (by decide)).1).trans (by decide)

/-- C10: on an instance produced by the facade `combine` operation, `element`
can be called any number of times without any error, each call appending its
value verbatim to the rendered text: `combine` seeds `selectors` with
`Set([undefined])` (no Element kind) and the `element` method never records
Element, so the at-most-one-Element restriction is never enforced there. -/
theorem c10_combine_element_unrestricted (a b : Selector) (c : String) (vs : List String) :
    (elementChain (cssSelectorBuilder.combine a c b) vs).2 = none ∧
    (elementChain (cssSelectorBuilder.combine a c b) vs).1.template
      = some (vs.foldl (fun acc v => acc ++ v)
          (jsTemplateStr a.template ++ " " ++ c ++ " " ++ jsTemplateStr b.template)) ∧
    (elementChain (cssSelectorBuilder.combine a c b) vs).1.selectors = [none] := by
  have e : cssSelectorBuilder.combine a c b
      = { template := some (jsTemplateStr a.template ++ " " ++ c ++ " " ++
            jsTemplateStr b.template),
          selectors := [none], order := selectorOrder } := rfl
  rw [e, elementChain_fresh]
  exact ⟨rfl, rfl, rfl⟩

